import Mathlib

/-!
Verification development for the Week18 Task Management API
(`routes/tasks.js` and its sibling implementations of the same router).

The handlers are shallowly embedded: the JSON file read/write layer is
modelled by passing the parsed collection (`List Task`) in and out of each
handler; a failed read (missing or unparseable file) is the `none` case of
the `Option (List Task)` parameter of the read-only handlers, matching
`getAllTasks`, which swallows read errors and returns `[]`.  JS numbers are
modelled as integers (`Int`), which is exact for the integer-valued ids and
arithmetic the handlers perform; `NaN` is a separate constructor.
Timestamps (`new Date().toISOString()` / `Date.now()`) are modelled as a
`now : Nat` parameter per request: ISO-8601 strings compare
chronologically, so `Nat` order is faithful.
-/

namespace TaskService

/-- Value of a decimal digit character, `none` for a non-digit. -/
def digitVal? (c : Char) : Option Nat :=
  if 48 ≤ c.toNat && c.toNat ≤ 57 then some (c.toNat - 48) else none

/-- Accumulating decimal reading of a character list; `none` on the first
non-digit. -/
def digitsAcc? : List Char → Nat → Option Nat
  | [], acc => some acc
  | c :: cs, acc =>
    match digitVal? c with
    | some d => digitsAcc? cs (acc * 10 + d)
    | none => none

/-- JS numeric reading of a string (`Number(s)` / `parseInt(s)`), modelled
on the signed-integer-literal fragment — the shape of every id this
service writes; any other string reads as `NaN` (`none`). -/
def strToNumber? (s : String) : Option Int :=
  match s.data with
  | [] => none
  | c :: cs =>
    if c == '-' then
      match cs with
      | [] => none
      | _ :: _ => (digitsAcc? cs 0).map (fun n => -(n : Int))
    else (digitsAcc? (c :: cs) 0).map (fun n => (n : Int))

/-- A JS value stored in a task's `id` field: the handlers variously store
numbers (`Math.max(...) + 1`), `NaN` (when `Math.max` sees a non-numeric
string), or strings (`` `${Date.now()}` ``). -/
inductive JsId where
  | num (n : Int)
  | nan
  | str (s : String)
deriving DecidableEq, Repr

/-- JS `ToString` of an id value, as used by `task.id.toString()` in the
PUT and DELETE handlers. -/
def JsId.toStr : JsId → String
  | .num n => toString n
  | .nan => "NaN"
  | .str s => s

/-- JS `ToNumber` coercion of an id value, as applied by `Math.max(...ids)`
in the create handler of part_002; `none` models `NaN`.  String coercion is
modelled on the integer-literal fragment (the shape of the ids this service
writes). -/
def JsId.toNumber? : JsId → Option Int
  | .num n => some n
  | .nan => none
  | .str s => strToNumber? s

/-- JS `parseInt` applied to an id, as in part_000's
`Math.max(...tasks.map((task) => parseInt(task.id)))`; modelled on the
integer-literal fragment. -/
def JsId.parseIntJs : JsId → Option Int
  | .num n => some n
  | .nan => none
  | .str s => strToNumber? s

/-- JS strict equality `task.id === id` between a stored id and the string
taken from the URL path (`req.params.id`): a number (or `NaN`) is never
strictly equal to a string. -/
def jsIdEqStr : JsId → String → Bool
  | .num _, _ => false
  | .nan, _ => false
  | .str a, b => a == b

/-- JS truthiness of an optional string field (`!taskData[field]` is true
when the field is absent or the empty string). -/
def jsTruthyStr : Option String → Bool
  | none => false
  | some s => s != ""

/-- Models `x || null` on an optional string: falsy (absent or `""`)
becomes `null`. -/
def jsOrNull : Option String → Option String
  | none => none
  | some s => if s = "" then none else some s

/-- Models `x || ""` on an optional string. -/
def jsOrEmpty : Option String → String
  | none => ""
  | some s => s

/-- A subtask record as stored in `tasks.json` (and as sent in request
bodies; the create handler's `subtask.title || ""` defaulting makes an
absent sub-field indistinguishable from `""`, which is how absence is
modelled here). -/
structure Subtask where
  id : String
  title : String
  description : String
  completed : Bool
deriving DecidableEq, Repr

/-- A `createdBy`/`assignedBy` object as sent in a request body; the
handler's `p.name || ""` defaulting lets `""` model an absent sub-field. -/
structure PersonRaw where
  name : String
  email : String
deriving DecidableEq, Repr

/-- A normalized `createdBy`/`assignedBy` record as stored by part_002's
create handler (`{ id: newId, name: ..., email: ... }`). -/
structure Person where
  id : JsId
  name : String
  email : String
deriving DecidableEq, Repr

/-- A task record as stored in `tasks.json`.  `assignedTo = none` models a
stored JS `null` (what part_000's and part_003's create handlers write when
the field is omitted). -/
structure Task where
  id : JsId
  title : String
  description : String
  status : String
  priority : String
  dueDate : Option String
  assignedTo : Option String
  subtasks : List Subtask
  createdAt : Nat
  updatedAt : Nat
  createdBy : Option Person
  assignedBy : Option Person
deriving DecidableEq, Repr

/-- The request body of `POST /tasks` as read by the create handlers:
`none` is an absent key. -/
structure TaskInput where
  title : Option String
  description : Option String
  status : Option String
  priority : Option String
  dueDate : Option String
  assignedTo : Option String
  subtasks : Option (List Subtask)
  createdBy : Option PersonRaw
  assignedBy : Option PersonRaw
deriving DecidableEq, Repr

/-- The request body of `PUT /tasks/:id` over the task fields the data
model declares for a patch; a present field (`some`) is spread over the
stored record, an absent field (`none`) leaves it unchanged. -/
structure UpdateInput where
  title : Option String
  description : Option String
  status : Option String
  priority : Option String
  dueDate : Option String
  assignedTo : Option String
  subtasks : Option (List Subtask)
deriving DecidableEq, Repr

/-- The query string of `GET /tasks` (part of it: the three parameters the
claims exercise). -/
structure ListQuery where
  status : Option String
  priority : Option String
  assignedTo : Option String
deriving DecidableEq, Repr

/-- A response body: the list payload (`{count, data}`), a single-record
payload (`{data}`), or an error payload (`{error}`). -/
inductive RespBody where
  | tasksList (count : Nat) (data : List Task)
  | taskData (t : Task)
  | err (msg : String)
deriving DecidableEq, Repr

/-- An HTTP response: status code and body. -/
structure Response where
  status : Nat
  body : RespBody
deriving DecidableEq, Repr

/-- Result of a mutating handler: the response plus the collection as
persisted after the call (unchanged when the handler rejects). -/
structure MutResult where
  resp : Response
  store : List Task
deriving DecidableEq, Repr

/-- `getAllTasks` from `routes/tasks.js`: a failed file read or JSON parse
(`none`) degrades to the empty collection. -/
def getAllTasks (readResult : Option (List Task)) : List Task :=
  readResult.getD []

/-- `validStatuses` from `validateTaskData`. -/
def validStatuses : List String :=
  ["pending", "in-progress", "completed", "cancelled"]

/-- `validPriorities` from `validateTaskData`. -/
def validPriorities : List String :=
  ["low", "medium", "high", "urgent"]

/-- The error text `validateTaskData` builds by joining `validStatuses`. -/
def invalidStatusMsg : String :=
  "Invalid status. Must be one of: pending, in-progress, completed, cancelled"

/-- The error text `validateTaskData` builds by joining `validPriorities`. -/
def invalidPriorityMsg : String :=
  "Invalid priority. Must be one of: low, medium, high, urgent"

/-- Result value of `validateTaskData`. -/
inductive ValidationResult where
  | valid
  | invalid (error : String)
deriving DecidableEq, Repr

/-- `validateTaskData` from `routes/tasks.js` (identical in part_000,
part_001 and part_002): the loop over
`["title", "description", "status", "priority"]` checking truthiness is
unrolled in that order, followed by the status and priority enumeration
checks. -/
def validateTaskData (title description status priority : Option String) :
    ValidationResult :=
  if !jsTruthyStr title then .invalid "Missing required field: title"
  else if !jsTruthyStr description then
    .invalid "Missing required field: description"
  else if !jsTruthyStr status then .invalid "Missing required field: status"
  else if !jsTruthyStr priority then
    .invalid "Missing required field: priority"
  else if !(validStatuses.contains (status.getD "")) then
    .invalid invalidStatusMsg
  else if !(validPriorities.contains (priority.getD "")) then
    .invalid invalidPriorityMsg
  else .valid

/-- Binary `Math.max` on possibly-`NaN` integers (`none` is `NaN`, which
is absorbing). -/
def jsMax2 : Option Int → Option Int → Option Int
  | some a, some b => some (max a b)
  | _, _ => none

/-- Variadic `Math.max(...xs)` on a nonempty spread of possibly-`NaN`
numbers (the empty case is unreachable under the handlers'
`tasks.length > 0` guard). -/
def jsMaxOf : List (Option Int) → Option Int
  | [] => none
  | [x] => x
  | x :: y :: xs => jsMax2 x (jsMaxOf (y :: xs))

/-- part_002's id generation:
`tasks.length > 0 ? Math.max(...tasks.map((task) => task.id)) + 1 : 1`.
Each stored id is coerced by `ToNumber`; a non-numeric string makes the
whole `Math.max` (and hence the new id) `NaN`. -/
def computeNewId (tasks : List Task) : JsId :=
  if tasks.length > 0 then
    match jsMaxOf (tasks.map (fun t => JsId.toNumber? t.id)) with
    | some m => .num (m + 1)
    | none => .nan
  else .num 1

/-- part_000's id generation, identical but coercing through `parseInt`. -/
def computeNewIdV0 (tasks : List Task) : JsId :=
  if tasks.length > 0 then
    match jsMaxOf (tasks.map (fun t => JsId.parseIntJs t.id)) with
    | some m => .num (m + 1)
    | none => .nan
  else .num 1

/-- part_003's `generateId`: `` `${Date.now()}` ``, a time-based string
token. -/
def generateId (now : Nat) : JsId :=
  .str (toString now)

/-- JS `String.prototype.toLowerCase`, modelled character-wise. -/
def jsToLower (s : String) : String :=
  String.map Char.toLower s

/-- Prefix test on character lists (helper for the substring test below). -/
def charsPre : List Char → List Char → Bool
  | [], _ => true
  | _ :: _, [] => false
  | a :: as, b :: bs => a == b && charsPre as bs

/-- JS `String.prototype.includes`: `needle` occurs contiguously in
`hay`. -/
def strIncludesChars : List Char → List Char → Bool
  | [], needle => needle.isEmpty
  | h :: t, needle => charsPre needle (h :: t) || strIncludesChars t needle

/-- `hay.includes(needle)` on strings. -/
def strIncludes (hay needle : String) : Bool :=
  strIncludesChars hay.data needle.data

/-- The `assignedTo` filter body of `GET /tasks`:
`tasks.filter((task) => task.assignedTo.toLowerCase().includes(q.toLowerCase()))`.
`Array.prototype.filter` evaluates the predicate left to right, and
`task.assignedTo.toLowerCase()` throws a `TypeError` when `assignedTo` is
`null` — the `Except.error` case, raised at the first such task. -/
def filterAssignedTo : List Task → String → Except Unit (List Task)
  | [], _ => .ok []
  | t :: ts, q =>
    match t.assignedTo with
    | none => .error ()
    | some a =>
      match filterAssignedTo ts q with
      | .error e => .error e
      | .ok rest =>
        .ok (if strIncludes (jsToLower a) (jsToLower q) then t :: rest
             else rest)

/-- `GET /tasks` from `routes/tasks.js` (lines 78–119): read the
collection (empty on read failure), apply the status, priority and
`assignedTo` filters in turn, each guarded by the truthiness of its query
parameter; a thrown `TypeError` in the `assignedTo` filter is caught by
the handler's `try`/`catch` and answered with the 500 error response. -/
def getTasks (readResult : Option (List Task)) (q : ListQuery) : Response :=
  let tasks := getAllTasks readResult
  let f1 := if jsTruthyStr q.status then
      tasks.filter (fun t => t.status == q.status.getD "")
    else tasks
  let f2 := if jsTruthyStr q.priority then
      f1.filter (fun t => t.priority == q.priority.getD "")
    else f1
  match (if jsTruthyStr q.assignedTo then
      filterAssignedTo f2 (q.assignedTo.getD "")
    else Except.ok f2) with
  | .ok l => ⟨200, .tasksList l.length l⟩
  | .error _ => ⟨500, .err "Error retrieving tasks"⟩

/-- `GET /tasks/:id` from `routes/tasks.js` (lines 124–147):
`tasks.find((task) => task.id === id)` with `id` the URL string; `404`
when no task strictly equals it. -/
def getTasksId (readResult : Option (List Task)) (id : String) : Response :=
  match (getAllTasks readResult).find? (fun t => jsIdEqStr t.id id) with
  | some t => ⟨200, .taskData t⟩
  | none => ⟨404, .err "Task not found"⟩

/-- The check `!createdBy || !createdBy.name || !createdBy.email` on a
normalized person record (negated: the record passes). -/
def personOk : Option Person → Bool
  | none => false
  | some p => p.name != "" && p.email != ""

/-- `POST /tasks` from part_002 (lines 168–265): validate the body,
compute `newId`, normalize `subtasks` (scoped ids
`` `${newId}.${index + 1}` ``), normalize and require `createdBy` and
`assignedBy`, build the record with `dueDate || null`,
`assignedTo || ""`, `createdAt = updatedAt = now`, push it and persist. -/
def postTasks (store : List Task) (input : TaskInput) (now : Nat) :
    MutResult :=
  match validateTaskData input.title input.description input.status
      input.priority with
  | .invalid e => ⟨⟨400, .err e⟩, store⟩
  | .valid =>
    let newId := computeNewId store
    let subtasks := match input.subtasks with
      | some ss => ss.mapIdx (fun i st =>
          ⟨newId.toStr ++ "." ++ toString (i + 1),
           st.title, st.description, st.completed⟩)
      | none => []
    let createdBy := input.createdBy.map
      (fun p => Person.mk newId p.name p.email)
    let assignedBy := input.assignedBy.map
      (fun p => Person.mk newId p.name p.email)
    if !personOk createdBy then
      ⟨⟨400, .err "Missing or invalid createdBy information"⟩, store⟩
    else if !personOk assignedBy then
      ⟨⟨400, .err "Missing or invalid assignedBy information"⟩, store⟩
    else
      let createdTask : Task :=
        { id := newId,
          title := input.title.getD "",
          description := input.description.getD "",
          status := input.status.getD "",
          priority := input.priority.getD "",
          dueDate := jsOrNull input.dueDate,
          assignedTo := some (jsOrEmpty input.assignedTo),
          subtasks := subtasks,
          createdAt := now,
          updatedAt := now,
          createdBy := createdBy,
          assignedBy := assignedBy }
      ⟨⟨201, .taskData createdTask⟩, store ++ [createdTask]⟩

/-- `POST /tasks` from part_000 (lines 152–207): truthiness check on the
four required fields, `parseInt`-based id generation, and a record with
`dueDate: null`, `assignedTo: null`, `subtasks: []`. -/
def postTasksV0 (store : List Task) (input : TaskInput) (now : Nat) :
    MutResult :=
  if !jsTruthyStr input.title || !jsTruthyStr input.description
      || !jsTruthyStr input.status || !jsTruthyStr input.priority then
    ⟨⟨400, .err "Missing reqiired fild"⟩, store⟩
  else
    let newTask : Task :=
      { id := computeNewIdV0 store,
        title := input.title.getD "",
        description := input.description.getD "",
        status := input.status.getD "",
        priority := input.priority.getD "",
        dueDate := none,
        assignedTo := none,
        subtasks := [],
        createdAt := now,
        updatedAt := now,
        createdBy := none,
        assignedBy := none }
    ⟨⟨201, .taskData newTask⟩, store ++ [newTask]⟩

/-- The object spread `{...tasks[taskIndex], ...updateData, updatedAt: now}`
of part_002's PUT handler: a field present in the patch overwrites, an
absent field keeps the stored value; `updatedAt` is then refreshed. -/
def mergeTask (t : Task) (p : UpdateInput) (now : Nat) : Task :=
  { id := t.id,
    title := p.title.getD t.title,
    description := p.description.getD t.description,
    status := p.status.getD t.status,
    priority := p.priority.getD t.priority,
    dueDate := match p.dueDate with | some s => some s | none => t.dueDate,
    assignedTo :=
      match p.assignedTo with | some s => some s | none => t.assignedTo,
    subtasks := p.subtasks.getD t.subtasks,
    createdAt := t.createdAt,
    updatedAt := now,
    createdBy := t.createdBy,
    assignedBy := t.assignedBy }

/-- `tasks.findIndex(p)` followed by `tasks[taskIndex] = f(tasks[taskIndex])`:
replaces the first task matching `p` and returns the old record, the new
record, and the updated collection (`none` when `findIndex` gives `-1`). -/
def updateFirst (p : Task → Bool) (f : Task → Task) :
    List Task → Option (Task × Task × List Task)
  | [] => none
  | t :: ts =>
    if p t then some (t, f t, f t :: ts)
    else (updateFirst p f ts).map (fun r => (r.1, r.2.1, t :: r.2.2))

/-- `tasks.findIndex(p)` followed by `tasks.splice(taskIndex, 1)`: removes
the first task matching `p`, returning the removed record and the rest
(`none` when `findIndex` gives `-1`). -/
def removeFirst (p : Task → Bool) : List Task → Option (Task × List Task)
  | [] => none
  | t :: ts =>
    if p t then some (t, ts)
    else (removeFirst p ts).map (fun r => (r.1, t :: r.2))

/-- `PUT /tasks/:id` from part_002 (lines 270–322): validate the whole
patch with `validateTaskData` (400 on failure, nothing read or written),
find the task by `task.id.toString() === taskId` (404 when absent), spread
the patch over the stored record with a fresh `updatedAt`, persist and
return it. -/
def putTasksId (store : List Task) (id : String) (patch : UpdateInput)
    (now : Nat) : MutResult :=
  match validateTaskData patch.title patch.description patch.status
      patch.priority with
  | .invalid e => ⟨⟨400, .err e⟩, store⟩
  | .valid =>
    match updateFirst (fun t => t.id.toStr == id)
        (fun t => mergeTask t patch now) store with
    | none => ⟨⟨404, .err "Task not found"⟩, store⟩
    | some r => ⟨⟨200, .taskData r.2.1⟩, r.2.2⟩

/-- `DELETE /tasks/:id` from part_002 (lines 326–364): find the task by
`task.id.toString() === taskId` (404 when absent), splice it out, persist,
and answer 200 with the removed record. -/
def deleteTasksId (store : List Task) (id : String) : MutResult :=
  match removeFirst (fun t => t.id.toStr == id) store with
  | none => ⟨⟨404, .err "Task not found"⟩, store⟩
  | some r => ⟨⟨200, .taskData r.1⟩, r.2⟩

/-- Written from the spec's words for claim C3: a required field "fails"
when it is missing (falsy), and `status`/`priority` additionally fail when
outside their enumerations. -/
def fieldFails (title description status priority : Option String) :
    String → Bool
  | "title" => !jsTruthyStr title
  | "description" => !jsTruthyStr description
  | "status" =>
    !jsTruthyStr status || !(validStatuses.contains (status.getD ""))
  | "priority" =>
    !jsTruthyStr priority || !(validPriorities.contains (priority.getD ""))
  | _ => false

/-- The required fields, in the order the claim (and the code's loop)
gives them. -/
def requiredFields : List String :=
  ["title", "description", "status", "priority"]

/-- Written from the spec's words for claim C3: the first failing field in
the order title, description, status, priority. -/
def claimFirstFailingField
    (title description status priority : Option String) : Option String :=
  requiredFields.find? (fieldFails title description status priority)

/-- The claim's precondition for C3: some required field is missing or
`status`/`priority` is outside its enumeration. -/
def claimInvalid (title description status priority : Option String) :
    Bool :=
  requiredFields.any (fieldFails title description status priority)

/-- The field the code's validation order reports first: the presence
checks in field order, then the status enumeration, then the priority
enumeration. -/
def codeFirstFailing (title description status priority : Option String) :
    Option String :=
  if !jsTruthyStr title then some "title"
  else if !jsTruthyStr description then some "description"
  else if !jsTruthyStr status then some "status"
  else if !jsTruthyStr priority then some "priority"
  else if !(validStatuses.contains (status.getD "")) then some "status"
  else if !(validPriorities.contains (priority.getD "")) then
    some "priority"
  else none

/-- Whether a validation error message names a given field: either the
missing-field message for it, or the enumeration message for `status` or
`priority`. -/
def errorNamesField (msg f : String) : Bool :=
  msg == ("Missing required field: " ++ f)
  || (f == "status" && msg == invalidStatusMsg)
  || (f == "priority" && msg == invalidPriorityMsg)

/-- A concrete valid create body for part_002's handler (which also
requires `createdBy` and `assignedBy`). -/
def sampleInput : TaskInput :=
  { title := some "Write report",
    description := some "Quarterly report",
    status := some "pending",
    priority := some "high",
    dueDate := none,
    assignedTo := none,
    subtasks := none,
    createdBy := some ⟨"Ann", "ann@example.com"⟩,
    assignedBy := some ⟨"Bob", "bob@example.com"⟩ }

/-- A concrete valid create body for part_000's handler. -/
def sampleInputV0 : TaskInput :=
  { title := some "Water plants",
    description := some "All of them",
    status := some "pending",
    priority := some "low",
    dueDate := none,
    assignedTo := none,
    subtasks := none,
    createdBy := none,
    assignedBy := none }

/-- A concrete stored task with numeric id 1. -/
def sampleTask : Task :=
  { id := .num 1,
    title := "Write report",
    description := "Quarterly report",
    status := "pending",
    priority := "high",
    dueDate := none,
    assignedTo := some "",
    subtasks := [],
    createdAt := 100,
    updatedAt := 100,
    createdBy := none,
    assignedBy := none }

/-- A second concrete stored task with string id "7". -/
def sampleTask2 : Task :=
  { id := .str "7",
    title := "Pay rent",
    description := "Monthly",
    status := "completed",
    priority := "medium",
    dueDate := none,
    assignedTo := some "ann",
    subtasks := [],
    createdAt := 50,
    updatedAt := 60,
    createdBy := none,
    assignedBy := none }

/-- The create body claim C3's counterexample uses: status present but
invalid, priority missing. -/
def c3Input : TaskInput :=
  { title := some "a",
    description := some "b",
    status := some "bogus",
    priority := none,
    dueDate := none,
    assignedTo := none,
    subtasks := none,
    createdBy := none,
    assignedBy := none }

/-- The patch claim C4's counterexample uses: only `status` is being
changed, to a value inside the enumeration. -/
def c4Patch : UpdateInput :=
  { title := none,
    description := none,
    status := some "completed",
    priority := none,
    dueDate := none,
    assignedTo := none,
    subtasks := none }

/-- A patch passing part_002's full validation, used to witness the
amended claim C4. -/
def c4FullPatch : UpdateInput :=
  { title := some "Write report",
    description := some "Quarterly report",
    status := some "completed",
    priority := some "high",
    dueDate := none,
    assignedTo := none,
    subtasks := none }

/-- A patch with an out-of-enumeration status, used to witness claim C5. -/
def c5Patch : UpdateInput :=
  { title := some "t",
    description := some "d",
    status := some "done",
    priority := some "low",
    dueDate := none,
    assignedTo := none,
    subtasks := none }

theorem fieldFails_title (t d s p : Option String) :
    fieldFails t d s p "title" = !jsTruthyStr t := rfl

theorem fieldFails_description (t d s p : Option String) :
    fieldFails t d s p "description" = !jsTruthyStr d := rfl

theorem fieldFails_status (t d s p : Option String) :
    fieldFails t d s p "status"
      = (!jsTruthyStr s || !(validStatuses.contains (s.getD ""))) := rfl

theorem fieldFails_priority (t d s p : Option String) :
    fieldFails t d s p "priority"
      = (!jsTruthyStr p || !(validPriorities.contains (p.getD ""))) := rfl

theorem postTasks_invalid (store : List Task) (input : TaskInput) (now : Nat)
    (e : String)
    (h : validateTaskData input.title input.description input.status
      input.priority = .invalid e) :
    postTasks store input now = ⟨⟨400, .err e⟩, store⟩ := by
  unfold postTasks
  rw [h]

theorem putTasksId_invalid (store : List Task) (id : String)
    (patch : UpdateInput) (now : Nat) (e : String)
    (h : validateTaskData patch.title patch.description patch.status
      patch.priority = .invalid e) :
    putTasksId store id patch now = ⟨⟨400, .err e⟩, store⟩ := by
  unfold putTasksId
  rw [h]

/-- `Math.max` over a nonempty spread of non-`NaN` numbers returns their
maximum: an upper bound that is itself one of the arguments. -/
theorem jsMaxOf_spec (l : List (Option Int)) (hne : l ≠ [])
    (h : ∀ x ∈ l, x.isSome) :
    ∃ m, jsMaxOf l = some m ∧ (∀ k, some k ∈ l → k ≤ m) ∧ some m ∈ l := by
  induction l with
  | nil => exact absurd rfl hne
  | cons x xs ih =>
    cases xs with
    | nil =>
      obtain ⟨k, hk⟩ := Option.isSome_iff_exists.mp (h x (by simp))
      refine ⟨k, by simp [jsMaxOf, hk], ?_, by simp [hk]⟩
      intro j hj
      simp only [List.mem_singleton] at hj
      rw [hk] at hj
      exact le_of_eq (Option.some.inj hj)
    | cons y ys =>
      obtain ⟨m, hm, hub, hmem⟩ := ih (by simp)
        (fun z hz => h z (List.mem_cons_of_mem _ hz))
      obtain ⟨k, hk⟩ := Option.isSome_iff_exists.mp (h x (by simp))
      refine ⟨max k m, ?_, ?_, ?_⟩
      · simp [jsMaxOf, hk, hm, jsMax2]
      · intro j hj
        rcases List.mem_cons.mp hj with hj | hj
        · rw [hk] at hj
          have hjk : j = k := Option.some.inj hj
          omega
        · have := hub j hj
          omega
      · rcases max_choice k m with hmax | hmax
        · rw [hmax, ← hk]
          exact List.mem_cons_self _ _
        · rw [hmax]
          exact List.mem_cons_of_mem _ hmem

/-- `findIndex` + index assignment: decomposition of a successful
`updateFirst`. -/
theorem updateFirst_exists (p : Task → Bool) (f : Task → Task)
    (l : List Task) (h : ∃ t ∈ l, p t = true) :
    ∃ o pre post, l = pre ++ o :: post ∧ p o = true ∧
      (∀ x ∈ pre, p x = false) ∧
      updateFirst p f l = some (o, f o, pre ++ f o :: post) := by
  induction l with
  | nil => simp at h
  | cons a as ih =>
    by_cases hpa : p a = true
    · exact ⟨a, [], as, rfl, hpa, by simp, by simp [updateFirst, hpa]⟩
    · have hpa' : p a = false := Bool.not_eq_true _ ▸ hpa
      have h' : ∃ t ∈ as, p t = true := by
        rcases h with ⟨t, ht, hpt⟩
        rcases List.mem_cons.mp ht with rfl | hm
        · exact absurd hpt hpa
        · exact ⟨t, hm, hpt⟩
      obtain ⟨o, pre, post, hl, hpo, hpre, huf⟩ := ih h'
      refine ⟨o, a :: pre, post, by simp [hl], hpo, ?_, ?_⟩
      · intro x hx
        rcases List.mem_cons.mp hx with rfl | hm
        · exact hpa'
        · exact hpre x hm
      · simp [updateFirst, hpa', huf]

/-- Decomposition of any successful `updateFirst`. -/
theorem updateFirst_cases (p : Task → Bool) (f : Task → Task)
    (l : List Task) (r : Task × Task × List Task)
    (h : updateFirst p f l = some r) :
    ∃ pre post, l = pre ++ r.1 :: post ∧ r.2.1 = f r.1 ∧
      r.2.2 = pre ++ f r.1 :: post := by
  induction l generalizing r with
  | nil => simp [updateFirst] at h
  | cons a as ih =>
    by_cases hpa : p a = true
    · rw [updateFirst, if_pos hpa] at h
      obtain rfl := Option.some.inj h
      exact ⟨[], as, rfl, rfl, rfl⟩
    · have hpa' : p a = false := Bool.not_eq_true _ ▸ hpa
      rw [updateFirst, if_neg hpa] at h
      cases hu : updateFirst p f as with
      | none => rw [hu] at h; simp at h
      | some r' =>
        rw [hu] at h
        simp only [Option.map_some'] at h
        obtain rfl := Option.some.inj h
        obtain ⟨pre, post, hl, hfst, hsnd⟩ := ih r' hu
        exact ⟨a :: pre, post, by simp [hl], by simp [hfst], by simp [hsnd]⟩

/-- `findIndex` + `splice`: decomposition of a successful `removeFirst`. -/
theorem removeFirst_exists (p : Task → Bool) (l : List Task)
    (h : ∃ t ∈ l, p t = true) :
    ∃ d pre post, l = pre ++ d :: post ∧ p d = true ∧
      (∀ x ∈ pre, p x = false) ∧
      removeFirst p l = some (d, pre ++ post) := by
  induction l with
  | nil => simp at h
  | cons a as ih =>
    by_cases hpa : p a = true
    · exact ⟨a, [], as, rfl, hpa, by simp, by simp [removeFirst, hpa]⟩
    · have hpa' : p a = false := Bool.not_eq_true _ ▸ hpa
      have h' : ∃ t ∈ as, p t = true := by
        rcases h with ⟨t, ht, hpt⟩
        rcases List.mem_cons.mp ht with rfl | hm
        · exact absurd hpt hpa
        · exact ⟨t, hm, hpt⟩
      obtain ⟨d, pre, post, hl, hpd, hpre, hrf⟩ := ih h'
      refine ⟨d, a :: pre, post, by simp [hl], hpd, ?_, ?_⟩
      · intro x hx
        rcases List.mem_cons.mp hx with rfl | hm
        · exact hpa'
        · exact hpre x hm
      · simp [removeFirst, hpa', hrf]

/-- `findIndex` returns `-1` when no element matches. -/
theorem removeFirst_none (p : Task → Bool) (l : List Task)
    (h : ∀ x ∈ l, p x = false) : removeFirst p l = none := by
  induction l with
  | nil => rfl
  | cons a as ih =>
    have hpa := h a (List.mem_cons_self _ _)
    simp [removeFirst, hpa, ih (fun x hx => h x (List.mem_cons_of_mem _ hx))]

/-- Decomposition of any successful `removeFirst`. -/
theorem removeFirst_cases (p : Task → Bool) (l : List Task)
    (r : Task × List Task) (h : removeFirst p l = some r) :
    ∃ pre post, l = pre ++ r.1 :: post ∧ r.2 = pre ++ post := by
  induction l generalizing r with
  | nil => simp [removeFirst] at h
  | cons a as ih =>
    by_cases hpa : p a = true
    · rw [removeFirst, if_pos hpa] at h
      obtain rfl := Option.some.inj h
      exact ⟨[], as, rfl, rfl⟩
    · have hpa' : p a = false := Bool.not_eq_true _ ▸ hpa
      rw [removeFirst, if_neg hpa] at h
      cases hu : removeFirst p as with
      | none => rw [hu] at h; simp at h
      | some r' =>
        rw [hu] at h
        simp only [Option.map_some'] at h
        obtain rfl := Option.some.inj h
        obtain ⟨pre, post, hl, hsnd⟩ := ih r' hu
        exact ⟨a :: pre, post, by simp [hl], by simp [hsnd]⟩

/-- C1: the claim says GetById on a freshly created task returns exactly
the created record.  The code violates it: part_002's create stores the
numeric id `1`, and the lookup `task.id === req.params.id` compares it
strictly against the URL string `"1"`, which is false for a number, so the
service answers 404 right after a successful 201 create. -/
theorem c1_getById_misses_created :
    (postTasks [] sampleInput 1000).resp.status = 201 ∧
    (postTasks [] sampleInput 1000).store.map (fun t => t.id)
      = [JsId.num 1] ∧
    jsIdEqStr (JsId.num 1) "1" = false ∧
    getTasksId (some (postTasks [] sampleInput 1000).store) "1"
      = ⟨404, .err "Task not found"⟩ := by decide

/-- C3 counterexample: on a body whose `status` is present but invalid and
whose `priority` is missing, the first failing field in the claimed order
title, description, status, priority is `status`, yet the validator (which
runs all four presence checks before the enumeration checks) reports
`priority`, so the error does not name the first failing field. -/
theorem c3_counterexample :
    claimFirstFailingField c3Input.title c3Input.description c3Input.status
      c3Input.priority = some "status" ∧
    validateTaskData c3Input.title c3Input.description c3Input.status
      c3Input.priority = .invalid "Missing required field: priority" ∧
    errorNamesField "Missing required field: priority" "status" = false ∧
    postTasks [] c3Input 0
      = ⟨⟨400, .err "Missing required field: priority"⟩, []⟩ := by decide

/-- C4 counterexample: the stored task with id 1 exists, the patch changes
only `status` and to a value inside the enumeration, yet part_002's update
runs the full create validation on the patch and rejects it with 400
(missing `title`), leaving the store unchanged — a patch omitting a
required field does not succeed. -/
theorem c4_counterexample :
    validStatuses.contains "completed" = true ∧
    c4Patch.status = some "completed" ∧
    c4Patch.title = none ∧
    (JsId.toStr sampleTask.id == "1") = true ∧
    putTasksId [sampleTask] "1" c4Patch 5
      = ⟨⟨400, .err "Missing required field: title"⟩, [sampleTask]⟩ := by
  decide

/-- C10: a reachable collection breaks the `assignedTo` filter: part_000's
create handler stores `assignedTo: null` when the field is omitted, and
`GET /tasks?assignedTo=...` then evaluates
`task.assignedTo.toLowerCase()` on `null`, throws, and the catch block
answers the 500 error response instead of excluding that task. -/
theorem c10_assignedTo_filter_throws :
    (postTasksV0 [] sampleInputV0 500).resp.status = 201 ∧
    (∀ t ∈ (postTasksV0 [] sampleInputV0 500).store, t.assignedTo = none) ∧
    getTasks (some (postTasksV0 [] sampleInputV0 500).store)
      ⟨none, none, some "ann"⟩ = ⟨500, .err "Error retrieving tasks"⟩ := by
  decide

/-- C2: for a collection whose ids are all numeric-like, part_002's create
assigns the new task the numeric id (max id in the collection) + 1 — or 1
when the collection is empty — and this new id differs from every id
already present (the other variant, part_003, instead draws its id from
`generateId`, a time-based token). -/
theorem c2_create_assigns_fresh_id (store : List Task)
    (h : ∀ t ∈ store, (JsId.toNumber? t.id).isSome = true) :
    ∃ n : Int, computeNewId store = JsId.num n ∧
      (store = [] → n = 1) ∧
      (∀ t ∈ store, ∀ k, JsId.toNumber? t.id = some k → k < n) ∧
      (store ≠ [] → ∃ t ∈ store, JsId.toNumber? t.id = some (n - 1)) ∧
      (∀ t ∈ store, t.id ≠ JsId.num n) := by
  cases store with
  | nil =>
    exact ⟨1, by simp [computeNewId], fun _ => rfl, by simp, by simp,
      by simp⟩
  | cons a as =>
    have hne : (a :: as).map (fun t => JsId.toNumber? t.id) ≠ [] := by simp
    have hall : ∀ x ∈ (a :: as).map (fun t => JsId.toNumber? t.id),
        x.isSome = true := by
      intro x hx
      obtain ⟨t, ht, rfl⟩ := List.mem_map.mp hx
      exact h t ht
    obtain ⟨m, hm, hub, hmem⟩ := jsMaxOf_spec _ hne hall
    have hcomp : computeNewId (a :: as) = JsId.num (m + 1) := by
      unfold computeNewId
      rw [if_pos (by simp), hm]
    have hlt : ∀ t ∈ a :: as, ∀ k, JsId.toNumber? t.id = some k →
        k < m + 1 := by
      intro t ht k hk
      have : some k ∈ (a :: as).map (fun t => JsId.toNumber? t.id) :=
        List.mem_map.mpr ⟨t, ht, hk⟩
      have := hub k this
      omega
    refine ⟨m + 1, hcomp, by simp, hlt, ?_, ?_⟩
    · intro _
      obtain ⟨t, ht, hteq⟩ := List.mem_map.mp hmem
      exact ⟨t, ht, by rw [hteq]; congr 1; omega⟩
    · intro t ht heq
      have : JsId.toNumber? t.id = some (m + 1) := by
        rw [heq]; rfl
      have := hlt t ht (m + 1) this
      omega

/-- Witness for C2 at a concrete two-task collection with a numeric id 1
and a numeric-like string id "7". -/
theorem c2_create_assigns_fresh_id_witness :
    (∀ t ∈ [sampleTask, sampleTask2], (JsId.toNumber? t.id).isSome = true) ∧
    (∃ n : Int, computeNewId [sampleTask, sampleTask2] = JsId.num n ∧
      ([sampleTask, sampleTask2] = ([] : List Task) → n = 1) ∧
      (∀ t ∈ [sampleTask, sampleTask2], ∀ k,
        JsId.toNumber? t.id = some k → k < n) ∧
      (([sampleTask, sampleTask2] : List Task) ≠ [] →
        ∃ t ∈ [sampleTask, sampleTask2],
          JsId.toNumber? t.id = some (n - 1)) ∧
      (∀ t ∈ [sampleTask, sampleTask2], t.id ≠ JsId.num n)) :=
  ⟨by decide, c2_create_assigns_fresh_id [sampleTask, sampleTask2]
    (by decide)⟩

/-- C3 (amended): an invalid create body is rejected with 400, the
collection is unchanged, and the error names the first failing field in
the code's check order — the four presence checks in the order title,
description, status, priority, followed by the status enumeration check
and then the priority enumeration check (not the per-field order the
original claim states, see the counterexample). -/
theorem c3_create_validation_rejects (input : TaskInput)
    (store : List Task) (now : Nat)
    (h : claimInvalid input.title input.description input.status
      input.priority = true) :
    ∃ f msg,
      codeFirstFailing input.title input.description input.status
        input.priority = some f ∧
      validateTaskData input.title input.description input.status
        input.priority = .invalid msg ∧
      errorNamesField msg f = true ∧
      postTasks store input now = ⟨⟨400, .err msg⟩, store⟩ := by
  by_cases h1 : jsTruthyStr input.title = true
  case neg =>
    have h1' : jsTruthyStr input.title = false := Bool.not_eq_true _ ▸ h1
    refine ⟨"title", "Missing required field: title", ?_, ?_, by decide, ?_⟩
    · simp [codeFirstFailing, h1']
    · simp [validateTaskData, h1']
    · exact postTasks_invalid _ _ _ _ (by simp [validateTaskData, h1'])
  case pos =>
  by_cases h2 : jsTruthyStr input.description = true
  case neg =>
    have h2' : jsTruthyStr input.description = false :=
      Bool.not_eq_true _ ▸ h2
    refine ⟨"description", "Missing required field: description", ?_, ?_,
      by decide, ?_⟩
    · simp [codeFirstFailing, h1, h2']
    · simp [validateTaskData, h1, h2']
    · exact postTasks_invalid _ _ _ _ (by simp [validateTaskData, h1, h2'])
  case pos =>
  by_cases h3 : jsTruthyStr input.status = true
  case neg =>
    have h3' : jsTruthyStr input.status = false := Bool.not_eq_true _ ▸ h3
    refine ⟨"status", "Missing required field: status", ?_, ?_,
      by decide, ?_⟩
    · simp [codeFirstFailing, h1, h2, h3']
    · simp [validateTaskData, h1, h2, h3']
    · exact postTasks_invalid _ _ _ _
        (by simp [validateTaskData, h1, h2, h3'])
  case pos =>
  by_cases h4 : jsTruthyStr input.priority = true
  case neg =>
    have h4' : jsTruthyStr input.priority = false := Bool.not_eq_true _ ▸ h4
    refine ⟨"priority", "Missing required field: priority", ?_, ?_,
      by decide, ?_⟩
    · simp [codeFirstFailing, h1, h2, h3, h4']
    · simp [validateTaskData, h1, h2, h3, h4']
    · exact postTasks_invalid _ _ _ _
        (by simp [validateTaskData, h1, h2, h3, h4'])
  case pos =>
  by_cases h5 : validStatuses.contains (input.status.getD "") = true
  case neg =>
    have h5' : validStatuses.contains (input.status.getD "") = false :=
      Bool.not_eq_true _ ▸ h5
    have h5m : input.status.getD "" ∉ validStatuses := by simpa using h5'
    refine ⟨"status", invalidStatusMsg, ?_, ?_, by decide, ?_⟩
    · simp [codeFirstFailing, h1, h2, h3, h4, h5m]
    · simp [validateTaskData, h1, h2, h3, h4, h5m]
    · exact postTasks_invalid _ _ _ _
        (by simp [validateTaskData, h1, h2, h3, h4, h5m])
  case pos =>
  by_cases h6 : validPriorities.contains (input.priority.getD "") = true
  case neg =>
    have h5m : input.status.getD "" ∈ validStatuses := by simpa using h5
    have h6' : validPriorities.contains (input.priority.getD "") = false :=
      Bool.not_eq_true _ ▸ h6
    have h6m : input.priority.getD "" ∉ validPriorities := by
      simpa using h6'
    refine ⟨"priority", invalidPriorityMsg, ?_, ?_, by decide, ?_⟩
    · simp [codeFirstFailing, h1, h2, h3, h4, h5m, h6m]
    · simp [validateTaskData, h1, h2, h3, h4, h5m, h6m]
    · exact postTasks_invalid _ _ _ _
        (by simp [validateTaskData, h1, h2, h3, h4, h5m, h6m])
  case pos =>
  exfalso
  have h5m : input.status.getD "" ∈ validStatuses := by simpa using h5
  have h6m : input.priority.getD "" ∈ validPriorities := by simpa using h6
  have : claimInvalid input.title input.description input.status
      input.priority = false := by
    simp [claimInvalid, requiredFields, fieldFails_title,
      fieldFails_description, fieldFails_status, fieldFails_priority,
      h1, h2, h3, h4, h5m, h6m]
  rw [this] at h
  exact Bool.false_ne_true h

/-- Witness for the amended C3 at a body missing `title`. -/
theorem c3_create_validation_rejects_witness :
    claimInvalid none (some "d") (some "pending") (some "low") = true ∧
    (∃ f msg,
      codeFirstFailing none (some "d") (some "pending") (some "low")
        = some f ∧
      validateTaskData none (some "d") (some "pending") (some "low")
        = .invalid msg ∧
      errorNamesField msg f = true ∧
      postTasks [] ⟨none, some "d", some "pending", some "low", none, none,
        none, none, none⟩ 7 = ⟨⟨400, .err msg⟩, []⟩) :=
  ⟨by decide, c3_create_validation_rejects
    ⟨none, some "d", some "pending", some "low", none, none, none, none,
      none⟩ [] 7 (by decide)⟩

/-- C5: updating an existing task with a patch whose `status` lies outside
the enumeration is rejected with 400 — the validation runs before any
lookup or write, so the whole collection is returned unchanged. -/
theorem c5_update_invalid_status_rejected (store : List Task) (id : String)
    (patch : UpdateInput) (now : Nat) (s : String)
    (_hex : ∃ t ∈ store, (JsId.toStr t.id == id) = true)
    (hs : patch.status = some s)
    (hbad : validStatuses.contains s = false) :
    ∃ e, putTasksId store id patch now = ⟨⟨400, .err e⟩, store⟩ := by
  have : ∃ e, validateTaskData patch.title patch.description patch.status
      patch.priority = .invalid e := by
    unfold validateTaskData
    rw [hs]
    split_ifs with h1 h2 h3 h4 h5 h6
    · exact ⟨_, rfl⟩
    · exact ⟨_, rfl⟩
    · exact ⟨_, rfl⟩
    · exact ⟨_, rfl⟩
    · exact ⟨_, rfl⟩
    · exact ⟨_, rfl⟩
    · exfalso
      simp only [Option.getD_some] at h5
      rw [hbad] at h5
      exact h5 (by decide)
  obtain ⟨e, he⟩ := this
  exact ⟨e, putTasksId_invalid _ _ _ _ _ he⟩

/-- Witness for C5 at a one-task collection and the status value "done". -/
theorem c5_update_invalid_status_rejected_witness :
    (∃ t ∈ [sampleTask], (JsId.toStr t.id == "1") = true) ∧
    c5Patch.status = some "done" ∧
    validStatuses.contains "done" = false ∧
    (∃ e, putTasksId [sampleTask] "1" c5Patch 9
      = ⟨⟨400, .err e⟩, [sampleTask]⟩) :=
  ⟨by decide, by decide, by decide,
    c5_update_invalid_status_rejected [sampleTask] "1" c5Patch 9 "done"
      (by decide) (by decide) (by decide)⟩

/-- C4 (amended): part_002's update applies the full create validation to
the patch, so only a patch carrying all four required fields (with valid
`status`/`priority`) succeeds — the original claim's "a patch omitting a
required field still succeeds" fails, see the counterexample.  For such a
validated patch on an existing task, update overwrites exactly the fields
present in the patch, retains the prior value of every absent field,
refreshes `updatedAt`, keeps `id` and `createdAt`, persists the merged
record in place, and returns it. -/
theorem c4_update_merges_validated_patch (store : List Task) (id : String)
    (patch : UpdateInput) (now : Nat)
    (hv : validateTaskData patch.title patch.description patch.status
      patch.priority = .valid)
    (hex : ∃ t ∈ store, (JsId.toStr t.id == id) = true) :
    ∃ old pre post,
      store = pre ++ old :: post ∧
      putTasksId store id patch now
        = ⟨⟨200, .taskData (mergeTask old patch now)⟩,
            pre ++ mergeTask old patch now :: post⟩ ∧
      (mergeTask old patch now).updatedAt = now ∧
      (mergeTask old patch now).createdAt = old.createdAt ∧
      (mergeTask old patch now).id = old.id ∧
      (patch.title = none → (mergeTask old patch now).title = old.title) ∧
      (∀ v, patch.title = some v → (mergeTask old patch now).title = v) ∧
      (patch.description = none →
        (mergeTask old patch now).description = old.description) ∧
      (∀ v, patch.description = some v →
        (mergeTask old patch now).description = v) ∧
      (patch.status = none →
        (mergeTask old patch now).status = old.status) ∧
      (∀ v, patch.status = some v → (mergeTask old patch now).status = v) ∧
      (patch.priority = none →
        (mergeTask old patch now).priority = old.priority) ∧
      (∀ v, patch.priority = some v →
        (mergeTask old patch now).priority = v) ∧
      (patch.dueDate = none →
        (mergeTask old patch now).dueDate = old.dueDate) ∧
      (∀ v, patch.dueDate = some v →
        (mergeTask old patch now).dueDate = some v) ∧
      (patch.assignedTo = none →
        (mergeTask old patch now).assignedTo = old.assignedTo) ∧
      (∀ v, patch.assignedTo = some v →
        (mergeTask old patch now).assignedTo = some v) ∧
      (patch.subtasks = none →
        (mergeTask old patch now).subtasks = old.subtasks) ∧
      (∀ v, patch.subtasks = some v →
        (mergeTask old patch now).subtasks = v) := by
  obtain ⟨old, pre, post, hl, hpo, hpre, huf⟩ :=
    updateFirst_exists (fun t => JsId.toStr t.id == id)
      (fun t => mergeTask t patch now) store hex
  refine ⟨old, pre, post, hl, ?_, rfl, rfl, rfl, ?_, ?_, ?_, ?_, ?_, ?_,
    ?_, ?_, ?_, ?_, ?_, ?_, ?_, ?_⟩
  · unfold putTasksId
    rw [hv, huf]
  · intro hn; simp [mergeTask, hn]
  · intro v hvv; simp [mergeTask, hvv]
  · intro hn; simp [mergeTask, hn]
  · intro v hvv; simp [mergeTask, hvv]
  · intro hn; simp [mergeTask, hn]
  · intro v hvv; simp [mergeTask, hvv]
  · intro hn; simp [mergeTask, hn]
  · intro v hvv; simp [mergeTask, hvv]
  · intro hn; simp [mergeTask, hn]
  · intro v hvv; simp [mergeTask, hvv]
  · intro hn; simp [mergeTask, hn]
  · intro v hvv; simp [mergeTask, hvv]
  · intro hn; simp [mergeTask, hn]
  · intro v hvv; simp [mergeTask, hvv]

/-- Witness for the amended C4: a fully validated patch on the stored
task with id 1. -/
theorem c4_update_merges_validated_patch_witness :
    validateTaskData c4FullPatch.title c4FullPatch.description
      c4FullPatch.status c4FullPatch.priority = .valid ∧
    (∃ t ∈ [sampleTask], (JsId.toStr t.id == "1") = true) ∧
    (∃ old pre post,
      [sampleTask] = pre ++ old :: post ∧
      putTasksId [sampleTask] "1" c4FullPatch 200
        = ⟨⟨200, .taskData (mergeTask old c4FullPatch 200)⟩,
            pre ++ mergeTask old c4FullPatch 200 :: post⟩ ∧
      (mergeTask old c4FullPatch 200).updatedAt = 200 ∧
      (mergeTask old c4FullPatch 200).createdAt = old.createdAt ∧
      (mergeTask old c4FullPatch 200).id = old.id ∧
      (c4FullPatch.title = none →
        (mergeTask old c4FullPatch 200).title = old.title) ∧
      (∀ v, c4FullPatch.title = some v →
        (mergeTask old c4FullPatch 200).title = v) ∧
      (c4FullPatch.description = none →
        (mergeTask old c4FullPatch 200).description = old.description) ∧
      (∀ v, c4FullPatch.description = some v →
        (mergeTask old c4FullPatch 200).description = v) ∧
      (c4FullPatch.status = none →
        (mergeTask old c4FullPatch 200).status = old.status) ∧
      (∀ v, c4FullPatch.status = some v →
        (mergeTask old c4FullPatch 200).status = v) ∧
      (c4FullPatch.priority = none →
        (mergeTask old c4FullPatch 200).priority = old.priority) ∧
      (∀ v, c4FullPatch.priority = some v →
        (mergeTask old c4FullPatch 200).priority = v) ∧
      (c4FullPatch.dueDate = none →
        (mergeTask old c4FullPatch 200).dueDate = old.dueDate) ∧
      (∀ v, c4FullPatch.dueDate = some v →
        (mergeTask old c4FullPatch 200).dueDate = some v) ∧
      (c4FullPatch.assignedTo = none →
        (mergeTask old c4FullPatch 200).assignedTo = old.assignedTo) ∧
      (∀ v, c4FullPatch.assignedTo = some v →
        (mergeTask old c4FullPatch 200).assignedTo = some v) ∧
      (c4FullPatch.subtasks = none →
        (mergeTask old c4FullPatch 200).subtasks = old.subtasks) ∧
      (∀ v, c4FullPatch.subtasks = some v →
        (mergeTask old c4FullPatch 200).subtasks = v)) :=
  ⟨by decide, by decide, c4_update_merges_validated_patch [sampleTask] "1"
    c4FullPatch 200 (by decide) (by decide)⟩

/-- C6: when exactly one stored task carries a given id string, the first
delete answers 200 with that record and removes it from the persisted
collection, and a second delete with the same id answers 404 and leaves
the collection as it was. -/
theorem c6_delete_twice (store : List Task) (tk : Task)
    (hmem : tk ∈ store)
    (huniq : (store.filter
      (fun t => JsId.toStr t.id == JsId.toStr tk.id)).length = 1) :
    ∃ pre post,
      store = pre ++ tk :: post ∧
      deleteTasksId store (JsId.toStr tk.id)
        = ⟨⟨200, .taskData tk⟩, pre ++ post⟩ ∧
      tk ∉ pre ++ post ∧
      deleteTasksId (pre ++ post) (JsId.toStr tk.id)
        = ⟨⟨404, .err "Task not found"⟩, pre ++ post⟩ := by
  have hptk : (fun t => JsId.toStr t.id == JsId.toStr tk.id) tk = true := by
    simp
  obtain ⟨d, pre, post, hl, hpd, hpre, hrf⟩ :=
    removeFirst_exists (fun t => JsId.toStr t.id == JsId.toStr tk.id) store
      ⟨tk, hmem, hptk⟩
  have hfilpre :
      pre.filter (fun t => JsId.toStr t.id == JsId.toStr tk.id) = [] :=
    List.filter_eq_nil_iff.mpr (fun x hx => by simp [hpre x hx])
  have hfil : store.filter (fun t => JsId.toStr t.id == JsId.toStr tk.id)
      = d :: post.filter (fun t => JsId.toStr t.id == JsId.toStr tk.id) := by
    rw [hl, List.filter_append, hfilpre]
    simp [hpd]
  have hfilpost :
      post.filter (fun t => JsId.toStr t.id == JsId.toStr tk.id) = [] := by
    have h1 := huniq
    rw [hfil] at h1
    simp only [List.length_cons] at h1
    exact List.length_eq_zero.mp (by omega)
  have hdtk : d = tk := by
    have htkf : tk ∈ store.filter
        (fun t => JsId.toStr t.id == JsId.toStr tk.id) :=
      List.mem_filter.mpr ⟨hmem, hptk⟩
    rw [hfil, hfilpost] at htkf
    exact (List.mem_singleton.mp htkf).symm
  have hnotmem : tk ∉ pre ++ post := by
    intro hmm
    rcases List.mem_append.mp hmm with hmm | hmm
    · exact absurd (hpre tk hmm) (by simp)
    · have : tk ∈ post.filter
          (fun t => JsId.toStr t.id == JsId.toStr tk.id) :=
        List.mem_filter.mpr ⟨hmm, hptk⟩
      rw [hfilpost] at this
      exact absurd this (List.not_mem_nil tk)
  have hnone : removeFirst (fun t => JsId.toStr t.id == JsId.toStr tk.id)
      (pre ++ post) = none := by
    apply removeFirst_none
    intro x hx
    rcases List.mem_append.mp hx with hx | hx
    · exact hpre x hx
    · by_contra hc
      have hpx : (fun t => JsId.toStr t.id == JsId.toStr tk.id) x = true :=
        Bool.not_eq_false _ ▸ hc
      have : x ∈ post.filter
          (fun t => JsId.toStr t.id == JsId.toStr tk.id) :=
        List.mem_filter.mpr ⟨hx, hpx⟩
      rw [hfilpost] at this
      exact absurd this (List.not_mem_nil x)
  refine ⟨pre, post, ?_, ?_, hnotmem, ?_⟩
  · rw [hl, hdtk]
  · unfold deleteTasksId
    rw [hrf, hdtk]
  · unfold deleteTasksId
    rw [hnone]

/-- Witness for C6 at a two-task collection in which exactly one task has
id string "1". -/
theorem c6_delete_twice_witness :
    sampleTask ∈ [sampleTask, sampleTask2] ∧
    ([sampleTask, sampleTask2].filter
      (fun t => JsId.toStr t.id == JsId.toStr sampleTask.id)).length = 1 ∧
    (∃ pre post,
      [sampleTask, sampleTask2] = pre ++ sampleTask :: post ∧
      deleteTasksId [sampleTask, sampleTask2] (JsId.toStr sampleTask.id)
        = ⟨⟨200, .taskData sampleTask⟩, pre ++ post⟩ ∧
      sampleTask ∉ pre ++ post ∧
      deleteTasksId (pre ++ post) (JsId.toStr sampleTask.id)
        = ⟨⟨404, .err "Task not found"⟩, pre ++ post⟩) :=
  ⟨by decide, by decide,
    c6_delete_twice [sampleTask, sampleTask2] sampleTask (by decide)
      (by decide)⟩

/-- C7: listing with a (non-empty) `status` query returns exactly the
stored records whose `status` equals it, as a subsequence of the stored
collection (original relative order preserved), with `count` equal to the
number of returned records. -/
theorem c7_list_filters_by_status (store : List Task) (s : String)
    (h : s ≠ "") :
    ∃ data, getTasks (some store) ⟨some s, none, none⟩
        = ⟨200, .tasksList data.length data⟩ ∧
      data = store.filter (fun t => t.status == s) ∧
      (∀ t, t ∈ data ↔ (t ∈ store ∧ t.status = s)) ∧
      List.Sublist data store := by
  have hb : jsTruthyStr (some s) = true := by
    simpa [jsTruthyStr] using h
  refine ⟨store.filter (fun t => t.status == s), ?_, rfl, ?_, ?_⟩
  · unfold getTasks getAllTasks
    rw [hb]
    simp [jsTruthyStr]
  · intro t
    rw [List.mem_filter]
    simp
  · exact List.filter_sublist store

/-- Witness for C7 at a two-task collection and the status value
"completed". -/
theorem c7_list_filters_by_status_witness :
    "completed" ≠ "" ∧
    (∃ data,
      getTasks (some [sampleTask, sampleTask2])
          ⟨some "completed", none, none⟩
        = ⟨200, .tasksList data.length data⟩ ∧
      data = [sampleTask, sampleTask2].filter
        (fun t => t.status == "completed") ∧
      (∀ t, t ∈ data ↔
        (t ∈ [sampleTask, sampleTask2] ∧ t.status = "completed")) ∧
      List.Sublist data [sampleTask, sampleTask2]) :=
  ⟨by decide, c7_list_filters_by_status [sampleTask, sampleTask2]
    "completed" (by decide)⟩

/-- C8: when the store read fails (missing or unparseable file),
`getAllTasks` degrades to the empty collection and the list endpoint
answers success with `count` 0 and empty data for every query, instead of
surfacing an error. -/
theorem c8_list_read_failure_degrades (q : ListQuery) :
    getTasks none q = ⟨200, .tasksList 0 []⟩ := by
  obtain ⟨qs, qp, qa⟩ := q
  unfold getTasks getAllTasks
  cases hs : jsTruthyStr qs <;> cases hp : jsTruthyStr qp <;>
    cases ha : jsTruthyStr qa <;> simp [filterAssignedTo]

/-- C9: every stored record satisfying `createdAt ≤ updatedAt` keeps doing
so across create, update and delete (for requests at a time `now` no
earlier than any stored `createdAt`): create stamps the new record with
`createdAt = updatedAt = now`, update keeps `createdAt` and refreshes
`updatedAt` to `now`, and delete only removes records. -/
theorem c9_updatedAt_ge_createdAt (store : List Task) (input : TaskInput)
    (id : String) (patch : UpdateInput) (now : Nat)
    (hinv : ∀ t ∈ store, t.createdAt ≤ t.updatedAt)
    (hpast : ∀ t ∈ store, t.createdAt ≤ now) :
    (∀ t ∈ (postTasks store input now).store, t.createdAt ≤ t.updatedAt) ∧
    ((postTasks store input now).store = store ∨
      ∃ nt, (postTasks store input now).store = store ++ [nt] ∧
        nt.createdAt = now ∧ nt.updatedAt = now) ∧
    (∀ t ∈ (putTasksId store id patch now).store,
      t.createdAt ≤ t.updatedAt) ∧
    (∀ t ∈ (deleteTasksId store id).store, t.createdAt ≤ t.updatedAt) := by
  have hpost : (postTasks store input now).store = store ∨
      ∃ nt, (postTasks store input now).store = store ++ [nt] ∧
        nt.createdAt = now ∧ nt.updatedAt = now := by
    unfold postTasks
    cases hval : validateTaskData input.title input.description input.status
        input.priority with
    | invalid e => left; rfl
    | valid =>
      simp only []
      split_ifs with hc ha
      · left; rfl
      · left; rfl
      · right; exact ⟨_, rfl, rfl, rfl⟩
  have hput : (putTasksId store id patch now).store = store ∨
      ∃ old pre post, store = pre ++ old :: post ∧
        (putTasksId store id patch now).store
          = pre ++ mergeTask old patch now :: post := by
    unfold putTasksId
    cases hval : validateTaskData patch.title patch.description patch.status
        patch.priority with
    | invalid e => left; rfl
    | valid =>
      cases huf : updateFirst (fun t => JsId.toStr t.id == id)
          (fun t => mergeTask t patch now) store with
      | none => left; rfl
      | some r =>
        obtain ⟨pre, post, hl, hfst, hsnd⟩ :=
          updateFirst_cases _ _ _ r huf
        right
        exact ⟨r.1, pre, post, hl, hsnd⟩
  have hdel : (deleteTasksId store id).store = store ∨
      ∃ d pre post, store = pre ++ d :: post ∧
        (deleteTasksId store id).store = pre ++ post := by
    unfold deleteTasksId
    cases hrm : removeFirst (fun t => JsId.toStr t.id == id) store with
    | none => left; rfl
    | some r =>
      obtain ⟨pre, post, hl, hsnd⟩ := removeFirst_cases _ _ r hrm
      right
      exact ⟨r.1, pre, post, hl, hsnd⟩
  refine ⟨?_, hpost, ?_, ?_⟩
  · rcases hpost with hpost | ⟨nt, hpost, hc, hu⟩
    · rw [hpost]; exact hinv
    · rw [hpost]
      intro t ht
      rcases List.mem_append.mp ht with ht | ht
      · exact hinv t ht
      · rw [List.mem_singleton.mp ht, hc, hu]
  · rcases hput with hput | ⟨old, pre, post, hl, hput⟩
    · rw [hput]; exact hinv
    · rw [hput]
      intro t ht
      have hold : old ∈ store := by
        rw [hl]; exact List.mem_append.mpr (Or.inr (List.mem_cons_self _ _))
      rcases List.mem_append.mp ht with ht | ht
      · exact hinv t (by rw [hl]; exact List.mem_append.mpr (Or.inl ht))
      · rcases List.mem_cons.mp ht with rfl | ht
        · show (mergeTask old patch now).createdAt
            ≤ (mergeTask old patch now).updatedAt
          have : (mergeTask old patch now).createdAt = old.createdAt := rfl
          rw [this]
          have : (mergeTask old patch now).updatedAt = now := rfl
          rw [this]
          exact hpast old hold
        · exact hinv t (by
            rw [hl]
            exact List.mem_append.mpr
              (Or.inr (List.mem_cons_of_mem _ ht)))
  · rcases hdel with hdel | ⟨d, pre, post, hl, hdel⟩
    · rw [hdel]; exact hinv
    · rw [hdel]
      intro t ht
      rcases List.mem_append.mp ht with ht | ht
      · exact hinv t (by rw [hl]; exact List.mem_append.mpr (Or.inl ht))
      · exact hinv t (by
          rw [hl]
          exact List.mem_append.mpr (Or.inr (List.mem_cons_of_mem _ ht)))

/-- Witness for C9 at a one-task collection and a later request time. -/
theorem c9_updatedAt_ge_createdAt_witness :
    (∀ t ∈ [sampleTask], t.createdAt ≤ t.updatedAt) ∧
    (∀ t ∈ [sampleTask], t.createdAt ≤ 150) ∧
    ((∀ t ∈ (postTasks [sampleTask] sampleInput 150).store,
      t.createdAt ≤ t.updatedAt) ∧
    ((postTasks [sampleTask] sampleInput 150).store = [sampleTask] ∨
      ∃ nt, (postTasks [sampleTask] sampleInput 150).store
          = [sampleTask] ++ [nt] ∧
        nt.createdAt = 150 ∧ nt.updatedAt = 150) ∧
    (∀ t ∈ (putTasksId [sampleTask] "1" c4FullPatch 150).store,
      t.createdAt ≤ t.updatedAt) ∧
    (∀ t ∈ (deleteTasksId [sampleTask] "1").store,
      t.createdAt ≤ t.updatedAt)) :=
  ⟨by decide, by decide,
    c9_updatedAt_ge_createdAt [sampleTask] sampleInput "1" c4FullPatch 150
      (by decide) (by decide)⟩

end TaskService
